import Mathlib

/-!
# Smart playlist driver (src/filescanner_smartpl.c)

A shallow embedding of the two functions of the file:

* `smartpl_parse_file` (lines 43-171) drives the ANTLR3 generated lexer, parser and tree
  walker.  Those objects are not part of the file; every call into them is an external call
  whose result is read from an `antlr_outcomes` record, and the sequence of calls made is
  recorded.  A use of a NULL object is reported as "no return value".
* `scan_smartpl` (lines 173-236) fetches or creates the playlist record, compiles the file
  and hands the record to the store.  The store functions of db.c are parameters of the
  model, and the sequence of store calls is recorded.

Logging (`DPRINTF`, with the `toStringTree` call that builds the debug message of line 109)
and the release of memory (`free`, `free_pli`) have no effect on the modelled state and are
left out; `strdup` is taken to succeed, and the tree returned by a parser rule that
reported no error is taken to be non-NULL.
-/

namespace SmartPL

/-! ## Data model -/

/-- A C string: its `char` elements before the terminating NUL, one list element each. -/
abbrev CString := List Char

/-- The fields of `struct playlist_info` (db.h) that the driver reads or writes.  A
`char *` field is `none` when the pointer is NULL; `type` holds an `enum pl_type` code. -/
structure playlist_info where
  id : Int
  title : Option CString
  type : Int
  query : Option CString
  path : Option CString
  virtual_path : Option CString
deriving DecidableEq, Repr

/-! ## smartpl_parse_file -/

/-- Results of the external ANTLR3 calls made while one file is compiled.  A Boolean field
says whether the constructor returned a non-NULL object; the two counters are the
`errorCount` fields read after the parser rule and after the tree walker rule; `title` and
`query` are the two string pointers of the `SMARTPL2SQL_playlist_return` value (`none` for
NULL, `some s` for a string object whose characters are `s`). -/
structure antlr_outcomes where
  input : Bool
  lxr : Bool
  tstream : Bool
  psr : Bool
  psr_errorCount : Nat
  nodes : Bool
  sqlconv : Bool
  sqlconv_errorCount : Nat
  title : Option CString
  query : Option CString
deriving DecidableEq, Repr

/-- External calls made by `smartpl_parse_file`, in the order of the source text. -/
inductive antlr_call where
  | antlr3FileStreamNew
  | SMARTPLLexerNew
  | antlr3CommonTokenStreamSourceNew
  | SMARTPLParserNew
  | psr_playlist
  | antlr3CommonTreeNodeStreamNewTree
  | SMARTPL2SQLNew
  | sqlconv_playlist
  | sqlconv_free
  | nodes_free
  | psr_free
  | tstream_free
  | lxr_free
  | input_close
deriving DecidableEq, Repr

/-- One execution of `smartpl_parse_file`: the external calls made, the value returned
(`none` when the execution dereferences a NULL object and so returns nothing), and the
record as the execution leaves it. -/
structure parse_run where
  calls : List antlr_call
  ret : Option Int
  pli : playlist_info
deriving DecidableEq, Repr

/-- Label `lxr_fail` (line 167): `input->close(input)`. -/
def lxr_fail : List antlr_call := [.input_close]

/-- Label `tkstream_fail` (line 165), falling through to `lxr_fail`. -/
def tkstream_fail : List antlr_call := .lxr_free :: lxr_fail

/-- Label `psr_fail` (line 163), falling through to `tkstream_fail`. -/
def psr_fail : List antlr_call := .tstream_free :: tkstream_fail

/-- Label `psr_error` (line 161), falling through to `psr_fail`. -/
def psr_error : List antlr_call := .psr_free :: psr_fail

/-- Label `sql_fail` (line 159), falling through to `psr_error`. -/
def sql_fail : List antlr_call := .nodes_free :: psr_error

/-- Label `sql_error` (line 157), falling through to `sql_fail`. -/
def sql_error : List antlr_call := .sqlconv_free :: sql_fail

/-- Lines 43-171.  `antlr file` gives the results of the external calls for `file`.
The local variables keep the names of the source; each `if` is the test of the source at
the line given. -/
def smartpl_parse_file (antlr : CString → antlr_outcomes) (file : CString)
    (pli : playlist_info) : parse_run :=
  let o := antlr file
  -- line 57/59
  let input := o.input
  let c := [antlr_call.antlr3FileStreamNew]
  -- line 64: if (input == NULL) return -1
  if input = false then { calls := c, ret := some (-1), pli := pli } else
  -- line 70
  let lxr := o.lxr
  let c := c ++ [.SMARTPLLexerNew]
  -- line 73: if (lxr == NULL) goto lxr_fail
  if lxr = false then { calls := c ++ lxr_fail, ret := some (-1), pli := pli } else
  -- line 80
  let tstream := o.tstream
  let c := c ++ [.antlr3CommonTokenStreamSourceNew]
  -- line 82: if (tstream == NULL) goto tkstream_fail
  if tstream = false then { calls := c ++ tkstream_fail, ret := some (-1), pli := pli } else
  -- line 90
  let psr := o.psr
  let c := c ++ [.SMARTPLParserNew]
  -- line 92: if (tstream == NULL) goto psr_fail; the label starts with tstream->free(tstream)
  if tstream = false then { calls := c, ret := none, pli := pli } else
  -- line 99: qtree = psr->playlist(psr) reads through psr
  if psr = false then { calls := c, ret := none, pli := pli } else
  let c := c ++ [.psr_playlist]
  -- line 102: if (psr->pParser->rec->state->errorCount > 0) goto psr_error
  if o.psr_errorCount > 0 then { calls := c ++ psr_error, ret := some (-1), pli := pli } else
  -- line 111
  let nodes := o.nodes
  let c := c ++ [.antlr3CommonTreeNodeStreamNewTree]
  -- line 112: if (!nodes) goto psr_error
  if nodes = false then { calls := c ++ psr_error, ret := some (-1), pli := pli } else
  -- line 119
  let sqlconv := o.sqlconv
  let c := c ++ [.SMARTPL2SQLNew]
  -- line 120: if (!sqlconv) goto sql_fail
  if sqlconv = false then { calls := c ++ sql_fail, ret := some (-1), pli := pli } else
  -- line 127: plreturn = sqlconv->playlist(sqlconv)
  let c := c ++ [.sqlconv_playlist]
  -- line 130: if (sqlconv->pTreeParser->rec->state->errorCount > 0) goto sql_error
  if o.sqlconv_errorCount > 0 then { calls := c ++ sql_error, ret := some (-1), pli := pli } else
  -- line 137: if (plreturn.title && plreturn.query)
  match o.title, o.query with
  | some title, some query =>
    -- lines 141-149
    { calls := c ++ sql_error, ret := some 0,
      pli := { pli with title := some title, query := some query } }
  | _, _ =>
    -- lines 153-154
    { calls := c ++ sql_error, ret := some (-1), pli := pli }

/-! ## scan_smartpl -/

/-- The surroundings of one `scan_smartpl` call: the constants `PATH_MAX` (limits.h) and
`PL_SMART` (db.h), the behaviour of the store functions of db.c in the current store state
(`db_pl_fetch_bypath` returns a record or NULL; `db_pl_update` and `db_pl_add` return an
`int`), whether `malloc` returns a block, and the ANTLR3 results for every file. -/
structure world where
  PATH_MAX : Nat
  PL_SMART : Int
  db_pl_fetch_bypath : CString → Option playlist_info
  malloc : Bool
  antlr : CString → antlr_outcomes
  db_pl_update : playlist_info → Int
  db_pl_add : playlist_info → Int

/-- Calls into the store made by `scan_smartpl`. -/
inductive store_call where
  | db_pl_fetch_bypath (path : CString)
  | db_pl_update (pli : playlist_info)
  | db_pl_add (pli : playlist_info)
deriving DecidableEq, Repr

/-- The store calls that change persisted state. -/
def store_call.mutating : store_call → Bool
  | .db_pl_fetch_bypath _ => false
  | .db_pl_update _ => true
  | .db_pl_add _ => true

/-- The way one `scan_smartpl` call ends: the three early `return`s (lines 190, 212, 228),
the end of the function (line 236), or no return because `smartpl_parse_file` dereferenced
NULL. -/
inductive scan_end where
  | out_of_memory
  | parse_error
  | store_error
  | done
  | null_deref
deriving DecidableEq, Repr

/-- One execution of `scan_smartpl`: the store calls in order, the record after the
fetch-or-create step (lines 183-204, `none` when `malloc` failed), the execution of
`smartpl_parse_file` when it was called, and how the call ended. -/
structure scan_run where
  store_calls : List store_call
  record : Option playlist_info
  parse : Option parse_run
  finish : scan_end
deriving DecidableEq, Repr

/-- The call `snprintf(virtual_path, PATH_MAX, "/file:%s", file)`: the formatted text cut
to `PATH_MAX - 1` characters. -/
def snprintf_file (PATH_MAX : Nat) (file : CString) : CString :=
  ("/file:".toList ++ file).take (PATH_MAX - 1)

/-- The call `strrchr(s, c)` for a character `c` other than NUL: the offset of the last
occurrence of `c` in `s`, or `none` (NULL) when there is none. -/
def strrchr : CString → Char → Option Nat
  | [], _ => none
  | x :: xs, c =>
    match strrchr xs c with
    | some i => some (i + 1)
    | none => if x = c then some 0 else none

/-- Lines 196-199: the buffer `virtual_path` after the `snprintf` and after the write of a
NUL at the last dot, if there is one. -/
def virtual_path_buffer (PATH_MAX : Nat) (file : CString) : CString :=
  let virtual_path := snprintf_file PATH_MAX file
  match strrchr virtual_path '.' with
  | some ptr => virtual_path.take ptr
  | none => virtual_path

/-- Lines 193-201: the zeroed record with `path`, `virtual_path` and `type` filled in. -/
def new_record (w : world) (file : CString) : playlist_info :=
  let pli : playlist_info :=
    { id := 0, title := none, type := 0, query := none, path := none, virtual_path := none }
  let pli := { pli with path := some file }
  let pli := { pli with virtual_path := some (virtual_path_buffer w.PATH_MAX file) }
  { pli with type := w.PL_SMART }

/-- Lines 206-236: the part of `scan_smartpl` that follows the fetch-or-create step. -/
def scan_compile_persist (w : world) (file : CString) (pli : playlist_info) : scan_run :=
  let fetch := [store_call.db_pl_fetch_bypath file]
  -- line 206
  let run := smartpl_parse_file w.antlr file pli
  match run.ret with
  | none =>
    { store_calls := fetch, record := some pli, parse := some run, finish := .null_deref }
  | some ret =>
    -- line 207: if (ret < 0) return
    if ret < 0 then
      { store_calls := fetch, record := some pli, parse := some run, finish := .parse_error }
    else
      let pli1 := run.pli
      -- line 215: if (pli->id) db_pl_update(pli) else db_pl_add(pli, &pl_id)
      let call := if pli1.id ≠ 0 then store_call.db_pl_update pli1 else store_call.db_pl_add pli1
      let ret := if pli1.id ≠ 0 then w.db_pl_update pli1 else w.db_pl_add pli1
      -- line 223: if (ret < 0) return
      { store_calls := fetch ++ [call], record := some pli, parse := some run,
        finish := if ret < 0 then .store_error else .done }

/-- Lines 173-236. -/
def scan_smartpl (w : world) (file : CString) : scan_run :=
  -- line 183
  match w.db_pl_fetch_bypath file with
  | none =>
    -- lines 186-191
    if w.malloc = false then
      { store_calls := [.db_pl_fetch_bypath file], record := none, parse := none,
        finish := .out_of_memory }
    else
      -- lines 193-201
      scan_compile_persist w file (new_record w file)
  | some pli =>
    -- line 204
    scan_compile_persist w file pli

/-- The store calls of a run that change persisted state. -/
def scan_run.mutations (r : scan_run) : List store_call :=
  r.store_calls.filter store_call.mutating

/-- A run ends in the failed state when it leaves through an error branch. -/
def scan_end.failed : scan_end → Bool
  | .done => false
  | _ => true

/-! ## Reference definitions for the virtual path -/

/-- The file name of a path: the characters after its last slash. -/
def file_name (file : CString) : CString :=
  (file.reverse.takeWhile (fun c => c != '/')).reverse

/-- The directory part of a path: everything up to and including its last slash. -/
def directory_part (file : CString) : CString :=
  (file.reverse.dropWhile (fun c => c != '/')).reverse

/-- The path with its file extension stripped, as the specification words it: when the
file name contains a dot, the last dot of the file name and what follows it are removed;
a path whose file name has no dot is unchanged. -/
def strip_extension_spec (file : CString) : CString :=
  if '.' ∈ file_name file then
    directory_part file ++
      (((file_name file).reverse.dropWhile (fun c => c != '.')).drop 1).reverse
  else file

/-! ## Concrete inputs -/

/-- ANTLR3 results of a compilation in which every stage succeeds. -/
def outcomes_ok : antlr_outcomes :=
  { input := true, lxr := true, tstream := true, psr := true, psr_errorCount := 0,
    nodes := true, sqlconv := true, sqlconv_errorCount := 0,
    title := some "rock".toList, query := some "f.rating > 3".toList }

/-- A record as the store holds it for an earlier scan of `/music/rock.smartpl`. -/
def stored_record : playlist_info :=
  { id := 7, title := some "old".toList, type := 1, query := some "1 = 1".toList,
    path := some "/music/rock.smartpl".toList, virtual_path := some "/file:/music/rock".toList }

/-- A world on Linux (`PATH_MAX` 4096) with `PL_SMART` 1, a working `malloc` and store
calls that succeed, for a given lookup result and given ANTLR3 results. -/
def world_of (fetch : Option playlist_info) (o : antlr_outcomes) : world :=
  { PATH_MAX := 4096
    PL_SMART := 1
    db_pl_fetch_bypath := fun _ => fetch
    malloc := true
    antlr := fun _ => o
    db_pl_update := fun _ => 0
    db_pl_add := fun _ => 0 }

/-- The path of the stored record. -/
def rock_path : CString := "/music/rock.smartpl".toList

/-- ANTLR3 results in which the parser rule reports two errors. -/
def outcomes_parse_errors : antlr_outcomes := { outcomes_ok with psr_errorCount := 2 }

/-- ANTLR3 results in which `SMARTPLParserNew` returns NULL after the input stream, the
lexer and the token stream were created. -/
def outcomes_psr_null : antlr_outcomes := { outcomes_ok with psr := false }

/-- ANTLR3 results in which the tree walker reports an error and still hands back a title
and a query. -/
def outcomes_walker_errors : antlr_outcomes := { outcomes_ok with sqlconv_errorCount := 1 }

/-- ANTLR3 results in which the tree walker hands back two empty strings. -/
def outcomes_empty_strings : antlr_outcomes :=
  { outcomes_ok with title := some [], query := some [] }

/-- A record found by the lookup whose `id` field is 0. -/
def record_id_zero : playlist_info := { stored_record with id := 0 }

/-- A path whose file name has no extension and whose directory name has a dot. -/
def dotted_directory_path : CString := "/music/my.lists/rock".toList

/-- ANTLR3 results in which the tree walker hands back a NULL title. -/
def outcomes_null_title : antlr_outcomes := { outcomes_ok with title := none }

/-- A path of 4095 characters, the longest that fits a `PATH_MAX` buffer on Linux. -/
def longest_path : CString := List.replicate 4095 'a'

/-! ## Lemmas on smartpl_parse_file -/

/-- The three ways a run can end, with the record it leaves. -/
theorem smartpl_parse_file_cases (A : CString → antlr_outcomes) (file : CString)
    (pli : playlist_info) :
    ((smartpl_parse_file A file pli).ret = some 0 ∧
      ∃ t q, (A file).title = some t ∧ (A file).query = some q ∧
        (smartpl_parse_file A file pli).pli = { pli with title := some t, query := some q }) ∨
    ((smartpl_parse_file A file pli).ret = some (-1) ∧
      (smartpl_parse_file A file pli).pli = pli) ∨
    ((smartpl_parse_file A file pli).ret = none ∧ (smartpl_parse_file A file pli).pli = pli ∧
      (A file).input = true ∧ (A file).lxr = true ∧ (A file).tstream = true ∧
      (A file).psr = false) := by
  rcases h : A file with ⟨i, l, t, p, pe, n, s, se, ti, q⟩
  cases i
  · simp [smartpl_parse_file, h]
  cases l
  · simp [smartpl_parse_file, h]
  cases t
  · simp [smartpl_parse_file, h]
  cases p
  · simp [smartpl_parse_file, h]
  rcases Nat.eq_zero_or_pos pe with hpe | hpe
  swap
  · simp [smartpl_parse_file, h, hpe]
  cases n
  · simp [smartpl_parse_file, h, hpe]
  cases s
  · simp [smartpl_parse_file, h, hpe]
  rcases Nat.eq_zero_or_pos se with hse | hse
  swap
  · simp [smartpl_parse_file, h, hpe, hse]
  cases ti <;> cases q <;> simp [smartpl_parse_file, h, hpe, hse]

/-- The value returned and the calls made do not depend on the record passed in. -/
theorem smartpl_parse_file_ret_indep (A : CString → antlr_outcomes) (file : CString)
    (p1 p2 : playlist_info) :
    (smartpl_parse_file A file p1).ret = (smartpl_parse_file A file p2).ret ∧
    (smartpl_parse_file A file p1).calls = (smartpl_parse_file A file p2).calls := by
  rcases h : A file with ⟨i, l, t, p, pe, n, s, se, ti, q⟩
  cases i
  · simp [smartpl_parse_file, h]
  cases l
  · simp [smartpl_parse_file, h]
  cases t
  · simp [smartpl_parse_file, h]
  cases p
  · simp [smartpl_parse_file, h]
  rcases Nat.eq_zero_or_pos pe with hpe | hpe
  swap
  · simp [smartpl_parse_file, h, hpe]
  cases n
  · simp [smartpl_parse_file, h, hpe]
  cases s
  · simp [smartpl_parse_file, h, hpe]
  rcases Nat.eq_zero_or_pos se with hse | hse
  swap
  · simp [smartpl_parse_file, h, hpe, hse]
  cases ti <;> cases q <;> simp [smartpl_parse_file, h, hpe, hse]

/-- A run that returns 0 leaves the record with the title and query of the tree walker,
both present, and every other field as it was. -/
theorem smartpl_parse_file_success (A : CString → antlr_outcomes) (file : CString)
    (pli : playlist_info) (h : (smartpl_parse_file A file pli).ret = some 0) :
    (smartpl_parse_file A file pli).pli =
      { pli with title := (A file).title, query := (A file).query } ∧
    (A file).title.isSome = true ∧ (A file).query.isSome = true := by
  rcases smartpl_parse_file_cases A file pli with ⟨_, t, q, ht, hq, hp⟩ | ⟨h1, _⟩ | ⟨h1, _⟩
  · simp [hp, ht, hq]
  · rw [h1] at h; simp at h
  · rw [h1] at h; simp at h

/-- A run that does not return 0 leaves the record as it was. -/
theorem smartpl_parse_file_failure (A : CString → antlr_outcomes) (file : CString)
    (pli : playlist_info) (h : (smartpl_parse_file A file pli).ret ≠ some 0) :
    (smartpl_parse_file A file pli).pli = pli := by
  rcases smartpl_parse_file_cases A file pli with ⟨h1, _⟩ | ⟨_, hp⟩ | ⟨_, hp, _⟩
  · exact absurd h1 h
  · exact hp
  · exact hp

/-- The only values returned are 0 and -1. -/
theorem smartpl_parse_file_ret_values (A : CString → antlr_outcomes) (file : CString)
    (pli : playlist_info) (r : Int) (h : (smartpl_parse_file A file pli).ret = some r) :
    r = 0 ∨ r = -1 := by
  rcases smartpl_parse_file_cases A file pli with ⟨h1, _⟩ | ⟨h1, _⟩ | ⟨h1, _⟩
  · rw [h1] at h; left; simpa using h.symm
  · rw [h1] at h; right; simpa using h.symm
  · rw [h1] at h; simp at h

/-- Whenever the parser object exists, or an earlier stage already failed, the run returns
0 with title and query both replaced or -1 with the record untouched. -/
theorem smartpl_parse_file_atomic (A : CString → antlr_outcomes) (file : CString)
    (pli : playlist_info)
    (hpsr : (A file).psr = true ∨ (A file).input = false ∨ (A file).lxr = false ∨
      (A file).tstream = false) :
    ((smartpl_parse_file A file pli).ret = some 0 ∧
      (smartpl_parse_file A file pli).pli.title = (A file).title ∧
      (smartpl_parse_file A file pli).pli.query = (A file).query) ∨
    ((smartpl_parse_file A file pli).ret = some (-1) ∧
      (smartpl_parse_file A file pli).pli = pli) := by
  rcases smartpl_parse_file_cases A file pli with
    ⟨h0, t, q, ht, hq, hp⟩ | ⟨h1, hp⟩ | ⟨_, _, hi, hl, ht, hp⟩
  · left; simp [h0, hp, ht, hq]
  · right; exact ⟨h1, hp⟩
  · simp [hi, hl, ht, hp] at hpsr

/-- The tree walker rule is invoked exactly when every earlier stage succeeded. -/
theorem smartpl_parse_file_walker_called (A : CString → antlr_outcomes) (file : CString)
    (pli : playlist_info) :
    antlr_call.sqlconv_playlist ∈ (smartpl_parse_file A file pli).calls ↔
      ((A file).input = true ∧ (A file).lxr = true ∧ (A file).tstream = true ∧
        (A file).psr = true ∧ (A file).psr_errorCount = 0 ∧ (A file).nodes = true ∧
        (A file).sqlconv = true) := by
  rcases h : A file with ⟨i, l, t, p, pe, n, s, se, ti, q⟩
  cases i
  · simp [smartpl_parse_file, h]
  cases l
  · simp [smartpl_parse_file, h, lxr_fail]
  cases t
  · simp [smartpl_parse_file, h, tkstream_fail, lxr_fail]
  cases p
  · simp [smartpl_parse_file, h]
  rcases Nat.eq_zero_or_pos pe with hpe | hpe
  swap
  · have hne : pe ≠ 0 := by omega
    simp [smartpl_parse_file, h, hpe, hne, psr_error, psr_fail, tkstream_fail, lxr_fail]
  cases n
  · simp [smartpl_parse_file, h, hpe, psr_error, psr_fail, tkstream_fail, lxr_fail]
  cases s
  · simp [smartpl_parse_file, h, hpe, sql_fail, psr_error, psr_fail, tkstream_fail, lxr_fail]
  rcases Nat.eq_zero_or_pos se with hse | hse
  swap
  · simp [smartpl_parse_file, h, hpe, hse]
  cases ti <;> cases q <;> simp [smartpl_parse_file, h, hpe, hse]

/-! ## Lemmas on scan_smartpl -/

/-- The store calls of the compile-and-persist step, by the result of the compilation. -/
theorem scan_compile_persist_calls (w : world) (file : CString) (pli : playlist_info) :
    (scan_compile_persist w file pli).store_calls =
      if (smartpl_parse_file w.antlr file pli).ret = some 0 then
        if pli.id ≠ 0 then
          [.db_pl_fetch_bypath file, .db_pl_update (smartpl_parse_file w.antlr file pli).pli]
        else
          [.db_pl_fetch_bypath file, .db_pl_add (smartpl_parse_file w.antlr file pli).pli]
      else [.db_pl_fetch_bypath file] := by
  rcases smartpl_parse_file_cases w.antlr file pli with
    ⟨h0, t, q, _, _, hp⟩ | ⟨h1, _⟩ | ⟨h1, _⟩
  · by_cases hid : pli.id = 0 <;> simp [scan_compile_persist, h0, hp, hid]
  · simp [scan_compile_persist, h1]
  · simp [scan_compile_persist, h1]

/-- The mutating store calls of the compile-and-persist step. -/
theorem scan_compile_persist_mutations (w : world) (file : CString) (pli : playlist_info) :
    (scan_compile_persist w file pli).mutations =
      if (smartpl_parse_file w.antlr file pli).ret = some 0 then
        if pli.id ≠ 0 then [.db_pl_update (smartpl_parse_file w.antlr file pli).pli]
        else [.db_pl_add (smartpl_parse_file w.antlr file pli).pli]
      else [] := by
  unfold scan_run.mutations
  rw [scan_compile_persist_calls]
  split_ifs <;> simp [store_call.mutating]

/-- The compile-and-persist step always calls `smartpl_parse_file` on the record given. -/
theorem scan_compile_persist_parse (w : world) (file : CString) (pli : playlist_info) :
    (scan_compile_persist w file pli).parse = some (smartpl_parse_file w.antlr file pli) ∧
    (scan_compile_persist w file pli).record = some pli := by
  unfold scan_compile_persist
  simp only []
  split
  · simp
  · split_ifs <;> simp

/-! ## Lemmas on the virtual path -/

/-- The search `strrchr` returns NULL exactly when the character does not occur. -/
theorem strrchr_eq_none (s : CString) (c : Char) : strrchr s c = none ↔ c ∉ s := by
  induction s with
  | nil => simp [strrchr]
  | cons x xs ih =>
    cases h : strrchr xs c with
    | none =>
      have hc : c ∉ xs := ih.mp h
      by_cases hx : x = c
      · simp [strrchr, h, hx]
      · have hx2 : ¬ c = x := fun e => hx e.symm
        simp [strrchr, h, hx, hx2, hc]
    | some i =>
      have hc : c ∈ xs := by
        by_contra hn
        rw [ih.mpr hn] at h
        simp at h
      simp [strrchr, h, hc]

/-- The search `strrchr` finds the occurrence after which the character does not occur
again. -/
theorem strrchr_append_cons (stem ext : CString) (c : Char) (h : c ∉ ext) :
    strrchr (stem ++ c :: ext) c = some stem.length := by
  induction stem with
  | nil => simp [strrchr, (strrchr_eq_none ext c).mpr h]
  | cons x xs ih => simp [strrchr, ih]

/-- The buffer never holds more than `PATH_MAX - 1` characters. -/
theorem virtual_path_buffer_length_le (n : Nat) (file : CString) :
    (virtual_path_buffer n file).length ≤ n - 1 := by
  have h1 : (snprintf_file n file).length ≤ n - 1 := by
    simp [snprintf_file, List.length_take]
  unfold virtual_path_buffer
  simp only []
  split
  · simp only [List.length_take]
    omega
  · exact h1

/-- When the formatted text fits the buffer and the path has no dot, the buffer holds the
path behind `/file:`. -/
theorem virtual_path_buffer_no_dot (n : Nat) (file : CString) (hfit : file.length + 6 < n)
    (hdot : '.' ∉ file) : virtual_path_buffer n file = "/file:".toList ++ file := by
  have hlen : ("/file:".toList ++ file).length ≤ n - 1 := by
    simp only [List.length_append]
    have : "/file:".toList.length = 6 := by decide
    omega
  have hs : snprintf_file n file = "/file:".toList ++ file := by
    unfold snprintf_file
    exact List.take_of_length_le hlen
  have hnone : strrchr ("/file:".toList ++ file) '.' = none := by
    rw [strrchr_eq_none]
    intro hm
    rcases List.mem_append.mp hm with h | h
    · revert h; decide
    · exact hdot h
  unfold virtual_path_buffer
  simp only [hs, hnone]

/-- When the formatted text fits the buffer, the buffer holds, behind `/file:`, the path
cut at its last dot. -/
theorem virtual_path_buffer_cut (n : Nat) (stem ext : CString)
    (hfit : (stem ++ '.' :: ext).length + 6 < n) (hext : '.' ∉ ext) :
    virtual_path_buffer n (stem ++ '.' :: ext) = "/file:".toList ++ stem := by
  have hlen : ("/file:".toList ++ (stem ++ '.' :: ext)).length ≤ n - 1 := by
    rw [List.length_append]
    have : "/file:".toList.length = 6 := by decide
    omega
  have hs : snprintf_file n (stem ++ '.' :: ext) = ("/file:".toList ++ stem) ++ '.' :: ext := by
    unfold snprintf_file
    rw [List.take_of_length_le hlen, List.append_assoc]
  have hsome : strrchr (("/file:".toList ++ stem) ++ '.' :: ext) '.' =
      some ("/file:".toList ++ stem).length := strrchr_append_cons _ _ _ hext
  unfold virtual_path_buffer
  simp only [hs, hsome]
  exact List.take_left _ _

/-- A list that contains `c` splits at the last `c`: the reversed list first runs through
elements other than `c`, then meets `c`. -/
theorem dropWhile_ne_of_mem (r : List Char) (c : Char) (h : c ∈ r) :
    ∃ t, r.dropWhile (fun x => x != c) = c :: t ∧
      r = r.takeWhile (fun x => x != c) ++ c :: t ∧
      c ∉ r.takeWhile (fun x => x != c) := by
  induction r with
  | nil => simp at h
  | cons x xs ih =>
    by_cases hx : x = c
    · subst hx
      exact ⟨xs, by simp [List.dropWhile], by simp [List.takeWhile], by simp [List.takeWhile]⟩
    · have hm : c ∈ xs := by
        rcases List.mem_cons.mp h with e | e
        · exact absurd e.symm hx
        · exact e
      obtain ⟨t, h1, h2, h3⟩ := ih hm
      have hb : (x != c) = true := by simp [hx]
      have hx2 : ¬ c = x := fun e => hx e.symm
      refine ⟨t, ?_, ?_, ?_⟩
      · simp [List.dropWhile, hb, h1]
      · simp only [List.takeWhile, hb, List.cons_append, List.cons.injEq, true_and]
        exact h2
      · simp [List.takeWhile, hb, hx2, h3]

/-- A path is its directory part followed by its file name. -/
theorem directory_part_append_file_name (file : CString) :
    directory_part file ++ file_name file = file := by
  unfold directory_part file_name
  rw [← List.reverse_append, List.takeWhile_append_dropWhile, List.reverse_reverse]

/-- A dot of the file name is a dot of the path. -/
theorem mem_of_mem_file_name (file : CString) (c : Char) (h : c ∈ file_name file) :
    c ∈ file := by
  rw [← directory_part_append_file_name file]
  exact List.mem_append_right _ h

/-- A path whose file name has no dot is left as it is. -/
theorem strip_extension_spec_no_ext (file : CString) (h : '.' ∉ file_name file) :
    strip_extension_spec file = file := by
  simp [strip_extension_spec, h]

/-- A path whose file name has a dot is the stripped path, a dot, and an extension without
a dot. -/
theorem strip_extension_spec_ext (file : CString) (h : '.' ∈ file_name file) :
    ∃ ext, '.' ∉ ext ∧ file = strip_extension_spec file ++ '.' :: ext := by
  have hr : '.' ∈ (file_name file).reverse := List.mem_reverse.mpr h
  obtain ⟨t, h1, h2, h3⟩ := dropWhile_ne_of_mem _ _ hr
  refine ⟨((file_name file).reverse.takeWhile (fun x => x != '.')).reverse, ?_, ?_⟩
  · simpa using h3
  · have hname : file_name file =
        t.reverse ++ '.' :: ((file_name file).reverse.takeWhile (fun x => x != '.')).reverse := by
      have := congrArg List.reverse h2
      simpa using this
    have hstrip : strip_extension_spec file = directory_part file ++ t.reverse := by
      simp [strip_extension_spec, h, h1]
    rw [hstrip, List.append_assoc, ← hname, directory_part_append_file_name]

/-! ## The driver and the store -/

/-- C1: if `smartpl_parse_file` returns a negative value for the file (for the fetched
record or for a newly created one: the value does not depend on the record), the
`scan_smartpl` call makes no `db_pl_update` and no `db_pl_add` call; its only store call
is the lookup. -/
theorem scan_smartpl_parse_failure_no_store_mutation (w : world) (file : CString)
    (pli : playlist_info) (r : Int)
    (hret : (smartpl_parse_file w.antlr file pli).ret = some r) (hneg : r < 0) :
    (scan_smartpl w file).mutations = [] ∧
    (scan_smartpl w file).store_calls = [.db_pl_fetch_bypath file] := by
  have hne : ∀ p, (smartpl_parse_file w.antlr file p).ret ≠ some 0 := by
    intro p h0
    rw [(smartpl_parse_file_ret_indep w.antlr file p pli).1, hret] at h0
    have : r = 0 := by simpa using h0
    omega
  unfold scan_smartpl
  split
  · by_cases hm : w.malloc = false
    · simp [hm, scan_run.mutations, store_call.mutating]
    · simp [hm, scan_compile_persist_mutations, scan_compile_persist_calls, hne]
  · simp [scan_compile_persist_mutations, scan_compile_persist_calls, hne]

/-- Witness for C1: the stored record is fetched and the parser reports two errors. -/
theorem scan_smartpl_parse_failure_no_store_mutation_witness :
    (smartpl_parse_file (world_of (some stored_record) outcomes_parse_errors).antlr rock_path
      stored_record).ret = some (-1) ∧
    (scan_smartpl (world_of (some stored_record) outcomes_parse_errors) rock_path).mutations
      = [] ∧
    (scan_smartpl (world_of (some stored_record) outcomes_parse_errors) rock_path).store_calls
      = [.db_pl_fetch_bypath rock_path] :=
  ⟨by decide,
    scan_smartpl_parse_failure_no_store_mutation
      (world_of (some stored_record) outcomes_parse_errors) rock_path stored_record (-1)
      (by decide) (by decide)⟩

/-- C2: when `SMARTPLParserNew` returns NULL after the three earlier objects were created,
the test at line 92 looks at `tstream`, not at `psr`, and line 99 reads through the NULL
`psr`: the run returns neither 0 nor -1. -/
theorem smartpl_parse_file_no_parser_no_return :
    (smartpl_parse_file (fun _ => outcomes_psr_null) rock_path stored_record).ret ≠ some 0 ∧
    (smartpl_parse_file (fun _ => outcomes_psr_null) rock_path stored_record).ret
      ≠ some (-1) ∧
    (smartpl_parse_file (fun _ => outcomes_psr_null) rock_path stored_record).ret = none := by
  decide

/-- C10: with the input stream, the lexer and the token stream created and the parser
object NULL, the run does not take the `psr_fail` exit: after `SMARTPLParserNew` it makes
no further call, releases nothing and returns no value, because line 99 reads through the
NULL `psr`. -/
theorem smartpl_parse_file_null_parser_used :
    outcomes_psr_null.input = true ∧ outcomes_psr_null.lxr = true ∧
    outcomes_psr_null.tstream = true ∧ outcomes_psr_null.psr = false ∧
    (smartpl_parse_file (fun _ => outcomes_psr_null) rock_path record_id_zero).calls =
      [.antlr3FileStreamNew, .SMARTPLLexerNew, .antlr3CommonTokenStreamSourceNew,
        .SMARTPLParserNew] ∧
    (smartpl_parse_file (fun _ => outcomes_psr_null) rock_path record_id_zero).ret = none ∧
    (scan_smartpl (world_of none outcomes_psr_null) rock_path).finish = .null_deref := by
  decide

/-- C3, as stated, fails: the lookup finds a record whose `id` is 0, the compilation
succeeds, and the one mutating call is `db_pl_add`, not `db_pl_update`. -/
theorem scan_smartpl_fetched_id_zero_is_added :
    (world_of (some record_id_zero) outcomes_ok).db_pl_fetch_bypath rock_path
      = some record_id_zero ∧
    (smartpl_parse_file (world_of (some record_id_zero) outcomes_ok).antlr rock_path
      record_id_zero).ret = some 0 ∧
    (scan_smartpl (world_of (some record_id_zero) outcomes_ok) rock_path).mutations =
      [.db_pl_add { record_id_zero with title := outcomes_ok.title,
                                        query := outcomes_ok.query }] ∧
    (scan_smartpl (world_of (some record_id_zero) outcomes_ok) rock_path).mutations ≠
      [.db_pl_update { record_id_zero with title := outcomes_ok.title,
                                           query := outcomes_ok.query }] := by
  decide

/-- C3, amended: when the compilation of the file succeeds, `scan_smartpl` makes exactly
one mutating store call, on the record carrying the compiled title and query.  It is
`db_pl_update` when the lookup found a record whose `id` is not 0 (the record keeps that
id), and `db_pl_add` when the lookup found a record whose `id` is 0 or found no record and
the new record was allocated. -/
theorem scan_smartpl_persists_once (w : world) (file : CString) (pli : playlist_info)
    (hret : (smartpl_parse_file w.antlr file pli).ret = some 0) :
    (scan_smartpl w file).mutations =
      match w.db_pl_fetch_bypath file with
      | some old =>
        if old.id ≠ 0 then
          [.db_pl_update { old with title := (w.antlr file).title,
                                    query := (w.antlr file).query }]
        else
          [.db_pl_add { old with title := (w.antlr file).title,
                                 query := (w.antlr file).query }]
      | none =>
        if w.malloc = true then
          [.db_pl_add { new_record w file with title := (w.antlr file).title,
                                               query := (w.antlr file).query }]
        else [] := by
  have h0 : ∀ p, (smartpl_parse_file w.antlr file p).ret = some 0 := by
    intro p
    rw [(smartpl_parse_file_ret_indep w.antlr file p pli).1, hret]
  have hp : ∀ p, (smartpl_parse_file w.antlr file p).pli =
      { p with title := (w.antlr file).title, query := (w.antlr file).query } :=
    fun p => (smartpl_parse_file_success w.antlr file p (h0 p)).1
  cases hf : w.db_pl_fetch_bypath file with
  | none =>
    have hid : (new_record w file).id = 0 := rfl
    cases hm : w.malloc with
    | false => simp [scan_smartpl, hf, hm, scan_run.mutations, store_call.mutating]
    | true => simp [scan_smartpl, hf, hm, scan_compile_persist_mutations, h0, hp, hid]
  | some old =>
    by_cases hid : old.id = 0 <;>
      simp [scan_smartpl, hf, scan_compile_persist_mutations, h0, hp, hid]

/-- Witness for C3, amended: the stored record (id 7) is fetched and updated once. -/
theorem scan_smartpl_persists_once_witness :
    (smartpl_parse_file (world_of (some stored_record) outcomes_ok).antlr rock_path
      stored_record).ret = some 0 ∧
    (scan_smartpl (world_of (some stored_record) outcomes_ok) rock_path).mutations =
      [.db_pl_update { stored_record with title := outcomes_ok.title,
                                          query := outcomes_ok.query }] :=
  ⟨by decide,
    scan_smartpl_persists_once (world_of (some stored_record) outcomes_ok) rock_path
      stored_record (by decide)⟩

/-- C5, as stated, fails: the tree walker hands back two empty strings, both pointers
are non-NULL, `smartpl_parse_file` returns 0 and the fetched record is stored with an
empty title and an empty query. -/
theorem smartpl_parse_file_accepts_empty_strings :
    outcomes_empty_strings.title = some [] ∧ outcomes_empty_strings.query = some [] ∧
    (smartpl_parse_file (fun _ => outcomes_empty_strings) rock_path stored_record).ret
      = some 0 ∧
    (scan_smartpl (world_of (some stored_record) outcomes_empty_strings) rock_path).mutations =
      [.db_pl_update { stored_record with title := some [], query := some [] }] := by
  decide

/-- C5, amended: `smartpl_parse_file` returns 0 only when the title and the query handed
back by the tree walker are both non-NULL (either may be the empty string); for every
tree walker result in which the title or the query is NULL it returns -1, it never returns
0, the record is left as it was and `scan_smartpl` stores nothing. -/
theorem smartpl_parse_file_success_needs_title_and_query (w : world) (file : CString)
    (pli : playlist_info) :
    ((smartpl_parse_file w.antlr file pli).ret = some 0 →
      (w.antlr file).title.isSome = true ∧ (w.antlr file).query.isSome = true) ∧
    ((w.antlr file).title = none ∨ (w.antlr file).query = none →
      (antlr_call.sqlconv_playlist ∈ (smartpl_parse_file w.antlr file pli).calls →
        (smartpl_parse_file w.antlr file pli).ret = some (-1)) ∧
      (smartpl_parse_file w.antlr file pli).ret ≠ some 0 ∧
      (smartpl_parse_file w.antlr file pli).pli = pli ∧
      (scan_smartpl w file).mutations = []) := by
  have hsucc : ∀ p, (smartpl_parse_file w.antlr file p).ret = some 0 →
      (w.antlr file).title.isSome = true ∧ (w.antlr file).query.isSome = true :=
    fun p h => (smartpl_parse_file_success w.antlr file p h).2
  refine ⟨hsucc pli, fun hnull => ?_⟩
  have hne : ∀ p, (smartpl_parse_file w.antlr file p).ret ≠ some 0 := by
    intro p h0
    have := hsucc p h0
    rcases hnull with h | h <;> simp [h] at this
  refine ⟨?_, hne pli, smartpl_parse_file_failure w.antlr file pli (hne pli), ?_⟩
  · intro hcall
    have hpsr := ((smartpl_parse_file_walker_called w.antlr file pli).mp hcall).2.2.2.1
    rcases smartpl_parse_file_cases w.antlr file pli with ⟨h0, _⟩ | ⟨h1, _⟩ | ⟨_, _, _, _, _, hp⟩
    · exact absurd h0 (hne pli)
    · exact h1
    · rw [hpsr] at hp; simp at hp
  · cases hf : w.db_pl_fetch_bypath file with
    | none =>
      cases hm : w.malloc with
      | false => simp [scan_smartpl, hf, hm, scan_run.mutations, store_call.mutating]
      | true => simp [scan_smartpl, hf, hm, scan_compile_persist_mutations, hne]
    | some old => simp [scan_smartpl, hf, scan_compile_persist_mutations, hne]

/-- Witness for C5, amended: a successful run has both strings present, and a NULL title
after a clean tree walk gives -1 and no stored record. -/
theorem smartpl_parse_file_success_needs_title_and_query_witness :
    ((world_of none outcomes_ok).antlr rock_path).title.isSome = true ∧
    ((world_of none outcomes_ok).antlr rock_path).query.isSome = true ∧
    (smartpl_parse_file (world_of none outcomes_null_title).antlr rock_path
      stored_record).ret = some (-1) ∧
    (scan_smartpl (world_of none outcomes_null_title) rock_path).mutations = [] :=
  ⟨((smartpl_parse_file_success_needs_title_and_query (world_of none outcomes_ok) rock_path
      stored_record).1 (by decide)).1,
   ((smartpl_parse_file_success_needs_title_and_query (world_of none outcomes_ok) rock_path
      stored_record).1 (by decide)).2,
   ((smartpl_parse_file_success_needs_title_and_query (world_of none outcomes_null_title)
      rock_path stored_record).2 (Or.inl (by decide))).1 (by decide),
   ((smartpl_parse_file_success_needs_title_and_query (world_of none outcomes_null_title)
      rock_path stored_record).2 (Or.inl (by decide))).2.2.2⟩

/-- C6: once the parser rule has run (the four objects before it exist), an error count
above 0 makes `smartpl_parse_file` return -1 without creating the node stream or the SQL
converter and without invoking the tree walker rule; and once the tree walker rule has
run, a tree parser error count above 0 makes it return -1 whatever title and query the
tree walker handed back.  In both cases the record is left as it was. -/
theorem smartpl_parse_file_fails_fast (A : CString → antlr_outcomes) (file : CString)
    (pli : playlist_info)
    (hin : (A file).input = true) (hlx : (A file).lxr = true)
    (hts : (A file).tstream = true) (hps : (A file).psr = true) :
    ((A file).psr_errorCount > 0 →
      antlr_call.psr_playlist ∈ (smartpl_parse_file A file pli).calls ∧
      (smartpl_parse_file A file pli).ret = some (-1) ∧
      (smartpl_parse_file A file pli).pli = pli ∧
      antlr_call.antlr3CommonTreeNodeStreamNewTree ∉ (smartpl_parse_file A file pli).calls ∧
      antlr_call.SMARTPL2SQLNew ∉ (smartpl_parse_file A file pli).calls ∧
      antlr_call.sqlconv_playlist ∉ (smartpl_parse_file A file pli).calls) ∧
    ((A file).psr_errorCount = 0 → (A file).nodes = true → (A file).sqlconv = true →
      (A file).sqlconv_errorCount > 0 →
      antlr_call.sqlconv_playlist ∈ (smartpl_parse_file A file pli).calls ∧
      (smartpl_parse_file A file pli).ret = some (-1) ∧
      (smartpl_parse_file A file pli).pli = pli) := by
  constructor
  · intro hpe
    simp [smartpl_parse_file, hin, hlx, hts, hps, hpe, psr_error, psr_fail, tkstream_fail,
      lxr_fail]
  · intro hpe hn hs hse
    simp [smartpl_parse_file, hin, hlx, hts, hps, hpe, hn, hs, hse]

/-- Witness for C6: two parser errors; and one tree parser error with a title and a query
handed back. -/
theorem smartpl_parse_file_fails_fast_witness :
    ((smartpl_parse_file (fun _ => outcomes_parse_errors) rock_path stored_record).ret
        = some (-1) ∧
      antlr_call.sqlconv_playlist ∉
        (smartpl_parse_file (fun _ => outcomes_parse_errors) rock_path stored_record).calls) ∧
    (outcomes_walker_errors.title.isSome = true ∧ outcomes_walker_errors.query.isSome = true ∧
      (smartpl_parse_file (fun _ => outcomes_walker_errors) rock_path stored_record).ret
        = some (-1)) :=
  ⟨⟨((smartpl_parse_file_fails_fast (fun _ => outcomes_parse_errors) rock_path stored_record
        (by decide) (by decide) (by decide) (by decide)).1 (by decide)).2.1,
    ((smartpl_parse_file_fails_fast (fun _ => outcomes_parse_errors) rock_path stored_record
        (by decide) (by decide) (by decide) (by decide)).1 (by decide)).2.2.2.2.2⟩,
   ⟨by decide, by decide,
    ((smartpl_parse_file_fails_fast (fun _ => outcomes_walker_errors) rock_path stored_record
        (by decide) (by decide) (by decide) (by decide)).2 (by decide) (by decide)
        (by decide) (by decide)).2.1⟩⟩

/-- C8: when the lookup finds a record and the compilation succeeds, the one record
handed to the store (by `db_pl_update`, or by `db_pl_add` when its id is 0) is the fetched
record as `smartpl_parse_file` left it: it has the id, path, virtual path and type of the
fetched record, and its title and query are the compiled ones.  And for every record and
every outcome, `smartpl_parse_file` writes no field other than title and query. -/
theorem scan_smartpl_update_frame (w : world) (file : CString) (old : playlist_info)
    (A : CString → antlr_outcomes) (f : CString) (pli : playlist_info)
    (hfetch : w.db_pl_fetch_bypath file = some old)
    (hret : (smartpl_parse_file w.antlr file old).ret = some 0) :
    (((scan_smartpl w file).mutations =
          [.db_pl_update (smartpl_parse_file w.antlr file old).pli] ∨
        (scan_smartpl w file).mutations =
          [.db_pl_add (smartpl_parse_file w.antlr file old).pli]) ∧
      (smartpl_parse_file w.antlr file old).pli.id = old.id ∧
      (smartpl_parse_file w.antlr file old).pli.path = old.path ∧
      (smartpl_parse_file w.antlr file old).pli.virtual_path = old.virtual_path ∧
      (smartpl_parse_file w.antlr file old).pli.type = old.type ∧
      (smartpl_parse_file w.antlr file old).pli.title = (w.antlr file).title ∧
      (smartpl_parse_file w.antlr file old).pli.query = (w.antlr file).query ∧
      (w.antlr file).title.isSome = true ∧ (w.antlr file).query.isSome = true) ∧
    ((smartpl_parse_file A f pli).pli.id = pli.id ∧
      (smartpl_parse_file A f pli).pli.path = pli.path ∧
      (smartpl_parse_file A f pli).pli.virtual_path = pli.virtual_path ∧
      (smartpl_parse_file A f pli).pli.type = pli.type) := by
  constructor
  · obtain ⟨hp, ht, hq⟩ := smartpl_parse_file_success w.antlr file old hret
    refine ⟨?_, ?_⟩
    · by_cases hid : old.id = 0
      · right
        simp [scan_smartpl, hfetch, scan_compile_persist_mutations, hret, hid]
      · left
        simp [scan_smartpl, hfetch, scan_compile_persist_mutations, hret, hid]
    · rw [hp]
      exact ⟨rfl, rfl, rfl, rfl, rfl, rfl, ht, hq⟩
  · rcases smartpl_parse_file_cases A f pli with ⟨_, t, q, _, _, hp⟩ | ⟨_, hp⟩ | ⟨_, hp, _⟩ <;>
      simp [hp]

/-- Witness for C8: the stored record (id 7) is fetched and the compilation succeeds; the
record handed to `db_pl_update` differs from it in title and query only.  The frame of
`smartpl_parse_file` is shown on a run that fails. -/
theorem scan_smartpl_update_frame_witness :
    (scan_smartpl (world_of (some stored_record) outcomes_ok) rock_path).mutations =
      [.db_pl_update { stored_record with title := outcomes_ok.title,
                                          query := outcomes_ok.query }] ∧
    (smartpl_parse_file (world_of (some stored_record) outcomes_ok).antlr rock_path
      stored_record).pli.id = 7 ∧
    (smartpl_parse_file (world_of (some stored_record) outcomes_ok).antlr rock_path
      stored_record).pli.virtual_path = stored_record.virtual_path ∧
    (smartpl_parse_file (fun _ => outcomes_walker_errors) rock_path record_id_zero).pli.path
      = record_id_zero.path :=
  ⟨by decide,
   (scan_smartpl_update_frame (world_of (some stored_record) outcomes_ok) rock_path
      stored_record (fun _ => outcomes_walker_errors) rock_path record_id_zero
      (by decide) (by decide)).1.2.1,
   (scan_smartpl_update_frame (world_of (some stored_record) outcomes_ok) rock_path
      stored_record (fun _ => outcomes_walker_errors) rock_path record_id_zero
      (by decide) (by decide)).1.2.2.2.1,
   (scan_smartpl_update_frame (world_of (some stored_record) outcomes_ok) rock_path
      stored_record (fun _ => outcomes_walker_errors) rock_path record_id_zero
      (by decide) (by decide)).2.2.1⟩

/-- C7, as stated, fails: `db_pl_fetch_bypath` hands back a pointer and nothing else, and
whichever pointer a failed lookup hands back, the file is compiled and the store is
changed.  With NULL a new record is built, compiled and added, and the call ends at the
end of the function; with a record, it is compiled and updated. -/
theorem scan_smartpl_failed_lookup_still_compiles :
    (world_of none outcomes_ok).db_pl_fetch_bypath rock_path = none ∧
    (scan_smartpl (world_of none outcomes_ok) rock_path).parse.isSome = true ∧
    (scan_smartpl (world_of none outcomes_ok) rock_path).mutations =
      [.db_pl_add { id := 0, title := outcomes_ok.title, type := 1,
                    query := outcomes_ok.query, path := some rock_path,
                    virtual_path := some "/file:/music/rock".toList }] ∧
    (scan_smartpl (world_of none outcomes_ok) rock_path).finish = .done ∧
    (scan_smartpl (world_of none outcomes_ok) rock_path).finish.failed = false ∧
    (scan_smartpl (world_of (some stored_record) outcomes_ok) rock_path).parse.isSome = true ∧
    (scan_smartpl (world_of (some stored_record) outcomes_ok) rock_path).mutations ≠ [] := by
  decide

/-- C7, amended: `scan_smartpl` has no exit for a failed lookup.  The only call that does
not compile the file is the one in which the lookup returns NULL and `malloc` fails; a
NULL lookup result, whatever caused it, is handled as "no record": a new record is built
and compiled, and when the compilation succeeds it is added with one `db_pl_add` call. -/
theorem scan_smartpl_null_lookup_is_not_found (w : world) (file : CString) :
    ((scan_smartpl w file).parse = none ↔
      (w.db_pl_fetch_bypath file = none ∧ w.malloc = false)) ∧
    (w.db_pl_fetch_bypath file = none → w.malloc = true →
      (scan_smartpl w file).record = some (new_record w file) ∧
      (scan_smartpl w file).parse =
        some (smartpl_parse_file w.antlr file (new_record w file)) ∧
      ((smartpl_parse_file w.antlr file (new_record w file)).ret = some 0 →
        (scan_smartpl w file).mutations =
          [.db_pl_add (smartpl_parse_file w.antlr file (new_record w file)).pli])) := by
  have hid : (new_record w file).id = 0 := rfl
  cases hf : w.db_pl_fetch_bypath file with
  | none =>
    cases hm : w.malloc with
    | false => simp [scan_smartpl, hf, hm]
    | true =>
      have h := scan_compile_persist_parse w file (new_record w file)
      refine ⟨by simp [scan_smartpl, hf, hm, h.1], fun _ _ => ⟨?_, ?_, ?_⟩⟩
      · simp [scan_smartpl, hf, hm, h.2]
      · simp [scan_smartpl, hf, hm, h.1]
      · intro h0
        simp [scan_smartpl, hf, hm, scan_compile_persist_mutations, h0, hid]
  | some old =>
    have h := scan_compile_persist_parse w file old
    simp [scan_smartpl, hf, h.1]

/-- Witness for C7, amended: the lookup returns NULL, the record is allocated and the
compilation succeeds. -/
theorem scan_smartpl_null_lookup_is_not_found_witness :
    (scan_smartpl (world_of none outcomes_ok) rock_path).record =
      some (new_record (world_of none outcomes_ok) rock_path) ∧
    (scan_smartpl (world_of none outcomes_ok) rock_path).mutations =
      [.db_pl_add (smartpl_parse_file (world_of none outcomes_ok).antlr rock_path
        (new_record (world_of none outcomes_ok) rock_path)).pli] :=
  ⟨((scan_smartpl_null_lookup_is_not_found (world_of none outcomes_ok) rock_path).2
      (by decide) (by decide)).1,
   ((scan_smartpl_null_lookup_is_not_found (world_of none outcomes_ok) rock_path).2
      (by decide) (by decide)).2.2 (by decide)⟩

/-! ## The new record -/

/-- C4, as stated, fails.  For `/music/my.lists/rock` the file name `rock` has no
extension, so the stripped path is the path itself, yet the virtual path of the new record
is `/file:/music/my`: the cut is made at the last dot of the whole path.  For a path of
4095 characters without a dot the virtual path is not `/file:` followed by the path
either: `snprintf` keeps `PATH_MAX - 1` characters. -/
theorem scan_smartpl_virtual_path_cut_in_directory :
    ((world_of none outcomes_ok).db_pl_fetch_bypath dotted_directory_path = none ∧
      file_name dotted_directory_path = "rock".toList ∧
      strip_extension_spec dotted_directory_path = dotted_directory_path ∧
      (scan_smartpl (world_of none outcomes_ok) dotted_directory_path).record =
        some { id := 0, title := none, type := 1, query := none,
               path := some dotted_directory_path,
               virtual_path := some "/file:/music/my".toList } ∧
      (new_record (world_of none outcomes_ok) dotted_directory_path).virtual_path ≠
        some ("/file:".toList ++ strip_extension_spec dotted_directory_path)) ∧
    (new_record (world_of none outcomes_ok) longest_path).virtual_path ≠
      some ("/file:".toList ++ strip_extension_spec longest_path) := by
  refine ⟨by decide, ?_⟩
  intro h
  have hdot : '.' ∉ longest_path := by
    intro hm
    have := (List.mem_replicate.mp hm).2
    revert this
    decide
  have hstrip : strip_extension_spec longest_path = longest_path :=
    strip_extension_spec_no_ext _ (fun hm => hdot (mem_of_mem_file_name _ _ hm))
  have hvp : (new_record (world_of none outcomes_ok) longest_path).virtual_path =
      some (virtual_path_buffer 4096 longest_path) := rfl
  rw [hvp, hstrip] at h
  have hlen := virtual_path_buffer_length_le 4096 longest_path
  rw [Option.some.inj h] at hlen
  have h6 : "/file:".toList.length = 6 := by decide
  simp only [List.length_append, h6, longest_path, List.length_replicate] at hlen
  omega

/-- C4, amended: when the lookup finds no record and the new record is allocated, the
record built by `scan_smartpl` has the file path as path, type `PL_SMART`, id 0, no title
and no query; and when `/file:` followed by the path fits the `PATH_MAX` buffer, its
virtual path is `/file:` followed by the path cut at the last dot of the whole path (the
path unchanged when it has no dot at all).  That is the path with its extension stripped
whenever the file name has an extension or the path has no dot. -/
theorem scan_smartpl_new_record (w : world) (file : CString)
    (hnull : w.db_pl_fetch_bypath file = none) (hmem : w.malloc = true) :
    (scan_smartpl w file).record = some (new_record w file) ∧
    (new_record w file).path = some file ∧
    (new_record w file).type = w.PL_SMART ∧
    (new_record w file).id = 0 ∧
    (new_record w file).title = none ∧
    (new_record w file).query = none ∧
    (file.length + 6 < w.PATH_MAX →
      ('.' ∉ file → (new_record w file).virtual_path = some ("/file:".toList ++ file)) ∧
      (∀ stem ext, file = stem ++ '.' :: ext → '.' ∉ ext →
        (new_record w file).virtual_path = some ("/file:".toList ++ stem)) ∧
      ('.' ∈ file_name file ∨ '.' ∉ file →
        (new_record w file).virtual_path =
          some ("/file:".toList ++ strip_extension_spec file))) := by
  have hvp : (new_record w file).virtual_path =
      some (virtual_path_buffer w.PATH_MAX file) := rfl
  have hrec : (scan_smartpl w file).record = some (new_record w file) := by
    simp [scan_smartpl, hnull, hmem, (scan_compile_persist_parse w file (new_record w file)).2]
  refine ⟨hrec, rfl, rfl, rfl, rfl, rfl, fun hfit => ?_⟩
  have hno : '.' ∉ file → (new_record w file).virtual_path = some ("/file:".toList ++ file) :=
    fun hdot => by rw [hvp, virtual_path_buffer_no_dot _ _ hfit hdot]
  have hcut : ∀ stem ext, file = stem ++ '.' :: ext → '.' ∉ ext →
      (new_record w file).virtual_path = some ("/file:".toList ++ stem) := by
    intro stem ext hfile hext
    rw [hvp]
    subst hfile
    rw [virtual_path_buffer_cut _ _ _ hfit hext]
  refine ⟨hno, hcut, ?_⟩
  rintro (hname | hdot)
  · obtain ⟨ext, hext, hfile⟩ := strip_extension_spec_ext file hname
    exact hcut _ ext hfile hext
  · rw [strip_extension_spec_no_ext file (fun hm => hdot (mem_of_mem_file_name _ _ hm))]
    exact hno hdot

/-- Witness for C4, amended: no record exists for `/music/rock.smartpl`. -/
theorem scan_smartpl_new_record_witness :
    (scan_smartpl (world_of none outcomes_ok) rock_path).record =
      some (new_record (world_of none outcomes_ok) rock_path) ∧
    (new_record (world_of none outcomes_ok) rock_path).path = some rock_path ∧
    (new_record (world_of none outcomes_ok) rock_path).type = 1 ∧
    (new_record (world_of none outcomes_ok) rock_path).id = 0 ∧
    (new_record (world_of none outcomes_ok) rock_path).virtual_path =
      some ("/file:".toList ++ strip_extension_spec rock_path) ∧
    strip_extension_spec rock_path = "/music/rock".toList :=
  ⟨(scan_smartpl_new_record (world_of none outcomes_ok) rock_path (by decide) (by decide)).1,
   (scan_smartpl_new_record (world_of none outcomes_ok) rock_path (by decide) (by decide)).2.1,
   (scan_smartpl_new_record (world_of none outcomes_ok) rock_path
      (by decide) (by decide)).2.2.1,
   (scan_smartpl_new_record (world_of none outcomes_ok) rock_path
      (by decide) (by decide)).2.2.2.1,
   ((scan_smartpl_new_record (world_of none outcomes_ok) rock_path
      (by decide) (by decide)).2.2.2.2.2.2 (by decide)).2.2 (Or.inl (by decide)),
   by decide⟩

end SmartPL
